import Mathlib

/-!
# Verification of the laundrypro-backend RBAC permission core

Shallow embedding of the permission taxonomy, subset validator, authorization
middleware and account-hierarchy controllers of the laundrypro backend
(`src/config/permissions.js`, `src/middlewares/checkPermission.js`,
`src/middlewares/centerAdminPermission.js`, `src/controllers/adminStaffController.js`,
and the super-admin admin-management controller), together with theorems
settling the specification claims about them.

Permission data travels through the JavaScript code as untyped object trees
(`mongoose` `Mixed` values), so we embed the relevant fragment of JavaScript
values explicitly: booleans, `null`, `undefined` and string-keyed objects.
-/

namespace LaundryPro

/-- Fragment of JavaScript values carrying permission data: booleans, `null`,
`undefined`, and string-keyed objects (field lists in insertion order). -/
inductive JVal where
  | jbool (b : Bool)
  | jnull
  | jundefined
  | jobj (fields : List (String × JVal))
deriving Repr

/-- Field lookup in a JavaScript object: first binding wins, absent keys give
`undefined`. -/
def getField : List (String × JVal) → String → JVal
  | [], _ => .jundefined
  | (k, v) :: rest, key => if k == key then v else getField rest key

/-- Property access `v[k]` / `v?.[k]` on permission data.  Objects look the key
up, primitives (booleans) have no own properties and give `undefined`, and a
`null`/`undefined` receiver gives `undefined` (the code only dereferences
possibly-nullish receivers through optional chaining `?.`, which short-circuits
to `undefined`). -/
def jget : JVal → String → JVal
  | .jobj fields, k => getField fields k
  | _, _ => .jundefined

/-- JavaScript truthiness of a permission value (`if (v)`): `false`, `null` and
`undefined` are falsy, `true` and every object are truthy. -/
def truthy : JVal → Bool
  | .jbool b => b
  | .jnull => false
  | .jundefined => false
  | .jobj _ => true

/-- Strict equality test `v === true`. -/
def isTrue : JVal → Bool
  | .jbool b => b
  | _ => false

/-- `Object.values(v)` on permission data: field values of an object, empty for
primitives. -/
def jvalues : JVal → List JVal
  | .jobj fields => fields.map Prod.snd
  | _ => []

/-- `email.toLowerCase()` as the controllers apply it to ASCII email strings:
lower-case every character. -/
def jsToLower (s : String) : String := ⟨s.data.map Char.toLower⟩

/-! ## Permission taxonomy (`src/config/permissions.js`) -/

/-- `MODULES`: all available modules in the system. -/
def MODULES : List String :=
  ["orders", "customers", "branches", "services", "financial", "reports", "users", "settings"]

/-- `COMMON_ACTIONS`: actions available for all modules. -/
def COMMON_ACTIONS : List String := ["view", "create", "update", "delete"]

/-- `ADVANCED_ACTIONS`: advanced actions specific to certain modules
(modules without an entry have none). -/
def ADVANCED_ACTIONS : String → List String
  | "orders" => ["assign", "cancel", "refund"]
  | "financial" => ["approve", "export"]
  | "reports" => ["export"]
  | "users" => ["assignRole"]
  | "services" => ["approveChanges"]
  | _ => []

/-- `getModuleActions(module)`: common actions followed by the module's
advanced actions. -/
def getModuleActions (module : String) : List String :=
  COMMON_ACTIONS ++ ADVANCED_ACTIONS module

/-- `getDefaultPermissions()`: every module gets every one of its actions set
to `false`. -/
def getDefaultPermissions : JVal :=
  .jobj (MODULES.map fun module =>
    (module, JVal.jobj ((getModuleActions module).map fun action => (action, JVal.jbool false))))

/-- `getFullAccessPermissions()`: every module gets every one of its actions
set to `true`. -/
def getFullAccessPermissions : JVal :=
  .jobj (MODULES.map fun module =>
    (module, JVal.jobj ((getModuleActions module).map fun action => (action, JVal.jbool true))))

/-- The permission read used by the authorization middleware:
`permissions?.[module]?.[action] === true`
(`src/middlewares/checkPermission.js`, line 58 and `hasPermission`). -/
def readPerm (permissions : JVal) (module action : String) : Bool :=
  isTrue (jget (jget permissions module) action)

/-! ## Subset validator (`isPermissionSubset` in `src/config/permissions.js`) -/

/-- Result record of `isPermissionSubset`. -/
structure SubsetResult where
  isValid : Bool
  invalidPermissions : List String
deriving Repr

/-- Inner loop of `isPermissionSubset`: for each action of the current module,
record `"module.action"` when the staff value is `=== true` but the admin value
is not. -/
def subsetActionLoop (adminPermissions staffPermissions : JVal) (module : String) :
    List String → List String
  | [] => []
  | action :: rest =>
    let staffHas := isTrue (jget (jget staffPermissions module) action)
    let adminHas := isTrue (jget (jget adminPermissions module) action)
    if staffHas && !adminHas then
      (module ++ "." ++ action) :: subsetActionLoop adminPermissions staffPermissions module rest
    else
      subsetActionLoop adminPermissions staffPermissions module rest

/-- Outer loop of `isPermissionSubset`: iterate the taxonomy modules, skipping
modules whose entry in the staff permissions is falsy (`continue`). -/
def subsetModuleLoop (adminPermissions staffPermissions : JVal) : List String → List String
  | [] => []
  | module :: rest =>
    (if truthy (jget staffPermissions module) then
      subsetActionLoop adminPermissions staffPermissions module (getModuleActions module)
    else []) ++ subsetModuleLoop adminPermissions staffPermissions rest

/-- `isPermissionSubset(adminPermissions, staffPermissions)`: collect the
violating `"module.action"` pairs; valid iff none. -/
def isPermissionSubset (adminPermissions staffPermissions : JVal) : SubsetResult :=
  let invalidPermissions := subsetModuleLoop adminPermissions staffPermissions MODULES
  { isValid := invalidPermissions.isEmpty, invalidPermissions := invalidPermissions }

/-- `hasAtLeastOnePermission(permissions)`: some module entry that is an object
has some action value `=== true`; non-object inputs and non-object module
entries count as having none. -/
def hasAtLeastOnePermission (permissions : JVal) : Bool :=
  match permissions with
  | .jobj fields =>
    fields.any fun mf =>
      match mf.2 with
      | .jobj actionFields => actionFields.any fun af => isTrue af.2
      | _ => false
  | _ => false

/-! Spec-side description of the subset validator, written from the
specification's words ("for every module in the taxonomy, for every valid
action of that module, if `read(candidate, module, action) == true` and
`read(parent, module, action) == false`, record `module.action`"), to be
compared with `isPermissionSubset` above. -/

/-- Modelled from the spec: the violation list described by the specification —
all taxonomy `module.action` pairs, in taxonomy iteration order, where the
candidate reads `true` and the parent reads `false`. -/
def specViolationList (parent candidate : JVal) : List String :=
  MODULES.flatMap fun module =>
    ((getModuleActions module).filter fun action =>
        readPerm candidate module action && !readPerm parent module action).map
      fun action => module ++ "." ++ action

/-! ## Authorization middleware (`src/middlewares/checkPermission.js` and
`src/middlewares/centerAdminPermission.js`) -/

/-- The authenticated principal as seen by the middleware: a resolved `role`
tag and a stored `permissions` value.  (`USER_ROLES` in `src/config/constants.js`
has no `SUPERADMIN` key, so `user.role === USER_ROLES.SUPERADMIN` compares
against `undefined` and is false for every string role; only the literal
`'superadmin'` comparison can match.) -/
structure Principal where
  role : String
  permissions : JVal
deriving Repr

/-- Outcome of an express middleware: pass the request on (`next()`) or respond
with a status, an error code, and (for permission denials that carry them) the
offending `module.action` details. -/
inductive MWResult where
  | next
  | respond (status : Nat) (code : String) (details : List String)
deriving Repr, DecidableEq

/-- `checkPermission(module, action)` middleware: unauthorized without a user,
superadmin bypass, 500 on a (module, action) pair outside the taxonomy,
otherwise allow iff `user.permissions?.[module]?.[action] === true`. -/
def checkPermission (module action : String) (user : Option Principal) : MWResult :=
  match user with
  | none => .respond 401 "UNAUTHORIZED" []
  | some u =>
    if u.role == "superadmin" then .next
    else if !(MODULES.contains module) then .respond 500 "INVALID_MODULE" []
    else if !((getModuleActions module).contains action) then .respond 500 "INVALID_ACTION" []
    else if readPerm u.permissions module action then .next
    else .respond 403 "PERMISSION_DENIED" [module ++ "." ++ action]

/-- `checkModuleAccess(module)` middleware: superadmin bypass, then allow iff
the user's entry for the module is truthy and `Object.values` of it contains a
value `=== true`. -/
def checkModuleAccess (module : String) (user : Option Principal) : MWResult :=
  match user with
  | none => .respond 401 "UNAUTHORIZED" []
  | some u =>
    if u.role == "superadmin" then .next
    else
      let modulePerms := jget u.permissions module
      if !(truthy modulePerms) then .respond 403 "PERMISSION_DENIED" []
      else if (jvalues modulePerms).any (fun v => isTrue v) then .next
      else .respond 403 "PERMISSION_DENIED" []

/-- `hasPermission(user, module, action)` controller utility: false without a
user, superadmin bypass, otherwise the permission read. -/
def hasPermission (user : Option Principal) (module action : String) : Bool :=
  match user with
  | none => false
  | some u =>
    if u.role == "superadmin" then true
    else readPerm u.permissions module action

/-- `requireCenterAdminPermission(module, action)` middleware: superadmin and
admin bypass unconditionally; only `center_admin` principals proceed to the
permission checks, which test truthiness of `permissions`, of
`permissions[module]`, and of `permissions[module][action]` in turn. -/
def requireCenterAdminPermission (module action : String) (user : Principal) : MWResult :=
  if user.role == "superadmin" || user.role == "admin" then .next
  else if !(user.role == "center_admin") then .respond 403 "ACCESS_DENIED" []
  else if !(truthy user.permissions) then .respond 403 "NO_PERMISSIONS" []
  else if !(truthy (jget user.permissions module)) then .respond 403 "MODULE_ACCESS_DENIED" []
  else if !(truthy (jget (jget user.permissions module) action)) then .respond 403 "ACTION_DENIED" []
  else .next

/-- `requireCenterAdminModuleAccess(module)` middleware: defined in the source
as `requireCenterAdminPermission(module, 'view')`. -/
def requireCenterAdminModuleAccess (module : String) (user : Principal) : MWResult :=
  requireCenterAdminPermission module "view" user

/-- `requireAnyCenterAdminPermission(permissions)` middleware: superadmin and
admin bypass; a `center_admin` is allowed iff some `{module, action}` in the
list has both `permissions[module]` and `permissions[module][action]` truthy. -/
def requireAnyCenterAdminPermission (permissions : List (String × String)) (user : Principal) :
    MWResult :=
  if user.role == "superadmin" || user.role == "admin" then .next
  else if !(user.role == "center_admin") then .respond 403 "ACCESS_DENIED" []
  else if !(truthy user.permissions) then .respond 403 "NO_PERMISSIONS" []
  else if permissions.any (fun p =>
      truthy (jget user.permissions p.1) && truthy (jget (jget user.permissions p.1) p.2)) then
    .next
  else .respond 403 "PERMISSION_DENIED" []

/-! ## Account hierarchy controllers
(`src/controllers/adminStaffController.js` and the super-admin admin-management
controller).  The mongo collection is embedded as a list of account records;
`findOne` is first-match lookup, `save` rewrites the record with the matching
`_id`, `updateMany` rewrites every matching record, and creation appends. -/

/-- A persisted `User` record, restricted to the fields the RBAC controllers
read or write. -/
structure Account where
  id : Nat
  role : String
  name : String
  email : String
  phone : String
  password : String
  permissions : JVal
  assignedBranch : Option String
  createdBy : Option Nat
  createdByModel : String
  isActive : Bool
  isEmailVerified : Bool
  staffCreated : List Nat
deriving Repr

/-- Outcome of a controller call: an error response (status and code, with the
violating pairs when the response carries `details.invalidPermissions`), a 201
with the created record, a plain success, or a success carrying the
`staffDeactivated` count. -/
inductive CtrlResult where
  | err (status : Nat) (code : String)
  | errDetails (status : Nat) (code : String) (invalidPermissions : List String)
  | created (account : Account)
  | ok
  | okCount (staffDeactivated : Nat)
deriving Repr

/-- Request body of `createAdmin` (`role` and `assignedBranch` are optional;
`role || USER_ROLES.ADMIN` defaults an omitted role to `admin`). -/
structure CreateAdminBody where
  name : String
  email : String
  phone : String
  password : String
  permissions : JVal
  assignedBranch : Option String
  role : Option String
deriving Repr

/-- `createAdmin` (super-admin controller): role whitelist, branch requirement
for center admins, duplicate checks, then the non-empty permission check
`!permissions || !hasAtLeastOnePermission(permissions)`; on success the new
admin/center-admin record is appended. -/
def createAdmin (store : List Account) (actorId freshId : Nat) (validationOk : Bool)
    (body : CreateAdminBody) : CtrlResult × List Account :=
  if !validationOk then (.err 400 "VALIDATION_ERROR", store)
  else
    let userRole := body.role.getD "admin"
    if !(userRole == "admin" || userRole == "center_admin") then (.err 400 "INVALID_ROLE", store)
    else if userRole == "center_admin" && body.assignedBranch.isNone then
      (.err 400 "BRANCH_REQUIRED", store)
    else if store.any (fun u => u.email == jsToLower body.email) then
      (.err 409 "DUPLICATE_EMAIL", store)
    else if store.any (fun u => u.phone == body.phone) then (.err 409 "DUPLICATE_PHONE", store)
    else if !(truthy body.permissions) || !(hasAtLeastOnePermission body.permissions) then
      (.err 400 "INVALID_PERMISSIONS", store)
    else
      let user : Account := {
        id := freshId, role := userRole, name := body.name, email := jsToLower body.email,
        phone := body.phone, password := body.password, permissions := body.permissions,
        assignedBranch := body.assignedBranch, createdBy := some actorId,
        createdByModel := "SuperAdmin", isActive := true, isEmailVerified := true,
        staffCreated := [] }
      (.created user, store ++ [user])

/-- `updatePermissions` (super-admin controller): find the admin/center-admin,
reject with `INVALID_PERMISSIONS` unless `permissions` is truthy and has at
least one enabled pair, otherwise replace the stored set. -/
def updatePermissions (store : List Account) (id : Nat) (permissions : JVal) :
    CtrlResult × List Account :=
  match store.find? (fun u => u.id == id && (u.role == "admin" || u.role == "center_admin")) with
  | none => (.err 404 "NOT_FOUND", store)
  | some admin =>
    if !(truthy permissions) || !(hasAtLeastOnePermission permissions) then
      (.err 400 "INVALID_PERMISSIONS", store)
    else
      (.ok,
        store.map fun u => if u.id == admin.id then { u with permissions := permissions } else u)

/-- Request body of `createStaff` (`permissions` may be omitted =
`undefined`). -/
structure CreateStaffBody where
  name : String
  email : String
  phone : String
  password : String
  permissions : JVal
deriving Repr

/-- `createStaff` (admin-staff controller): duplicate checks, subset validation
of the requested permissions against the acting admin's set (only when a
permissions value was supplied), then creation with `role` fixed to `staff`,
`permissions || getDefaultPermissions()`, and `assignedBranch` copied from the
acting admin; finally the new id is pushed onto the admin's `staffCreated`. -/
def createStaff (store : List Account) (admin : Account) (freshId : Nat) (validationOk : Bool)
    (body : CreateStaffBody) : CtrlResult × List Account :=
  if !validationOk then (.err 400 "VALIDATION_ERROR", store)
  else if store.any (fun u => u.email == jsToLower body.email) then
    (.err 409 "DUPLICATE_EMAIL", store)
  else if store.any (fun u => u.phone == body.phone) then (.err 409 "DUPLICATE_PHONE", store)
  else if truthy body.permissions
      && !(isPermissionSubset admin.permissions body.permissions).isValid then
    (.errDetails 400 "INVALID_PERMISSION"
      (isPermissionSubset admin.permissions body.permissions).invalidPermissions, store)
  else
    let staff : Account := {
      id := freshId, role := "staff", name := body.name, email := jsToLower body.email,
      phone := body.phone, password := body.password,
      permissions := if truthy body.permissions then body.permissions else getDefaultPermissions,
      assignedBranch := admin.assignedBranch, createdBy := some admin.id,
      createdByModel := "User", isActive := true, isEmailVerified := true, staffCreated := [] }
    (.created staff,
      (store ++ [staff]).map fun u =>
        if u.id == admin.id then { u with staffCreated := u.staffCreated ++ [freshId] } else u)

/-- Request body of `createCenterAdmin`. -/
structure CreateCenterAdminBody where
  name : String
  email : String
  phone : String
  password : String
  assignedBranch : Option String
deriving Repr

/-- `createCenterAdmin` (admin-staff controller, mounted for admin principals
with `users.create`): requires the acting admin's `permissions?.users?.create`
to be truthy and a supplied branch, then creates a record with `role` fixed to
`center_admin` and `assignedBranch` taken from the request body.
`centerAdminData` sets no `permissions` field, so the schema default `{}`
applies. -/
def createCenterAdmin (store : List Account) (admin : Account) (freshId : Nat)
    (validationOk : Bool) (body : CreateCenterAdminBody) : CtrlResult × List Account :=
  if !validationOk then (.err 400 "VALIDATION_ERROR", store)
  else if !(truthy (jget (jget admin.permissions "users") "create")) then
    (.err 403 "FORBIDDEN", store)
  else if body.assignedBranch.isNone then (.err 400 "BRANCH_REQUIRED", store)
  else if store.any (fun u => u.email == jsToLower body.email) then
    (.err 409 "DUPLICATE_EMAIL", store)
  else if store.any (fun u => u.phone == body.phone) then (.err 409 "DUPLICATE_PHONE", store)
  else
    let centerAdmin : Account := {
      id := freshId, role := "center_admin", name := body.name, email := jsToLower body.email,
      phone := body.phone, password := body.password, permissions := .jobj [],
      assignedBranch := body.assignedBranch, createdBy := some admin.id,
      createdByModel := "User", isActive := true, isEmailVerified := true, staffCreated := [] }
    (.created centerAdmin, store ++ [centerAdmin])

/-- Request body of `updateStaff` (`if (name) ...` / `if (phone) ...`: only
truthy supplied values overwrite; omitted values are `none`). -/
structure UpdateStaffBody where
  name : Option String
  phone : Option String
  permissions : JVal
deriving Repr

/-- `updateStaff` (admin-staff controller): ownership check against the acting
admin's `staffCreated`, lookup, subset validation of the new permissions
against the acting admin's set as passed in at call time, then the field
updates and save. -/
def updateStaff (store : List Account) (admin : Account) (id : Nat) (validationOk : Bool)
    (body : UpdateStaffBody) : CtrlResult × List Account :=
  if !validationOk then (.err 400 "VALIDATION_ERROR", store)
  else if !(admin.staffCreated.contains id) then (.err 403 "FORBIDDEN", store)
  else
    match store.find? (fun u => u.id == id && u.role == "staff") with
    | none => (.err 404 "NOT_FOUND", store)
    | some staff =>
      if truthy body.permissions
          && !(isPermissionSubset admin.permissions body.permissions).isValid then
        (.errDetails 400 "INVALID_PERMISSION"
          (isPermissionSubset admin.permissions body.permissions).invalidPermissions, store)
      else
        let updated := { staff with
          name := body.name.getD staff.name,
          phone := body.phone.getD staff.phone,
          permissions := if truthy body.permissions then body.permissions else staff.permissions }
        (.ok, store.map fun u => if u.id == staff.id then updated else u)

/-- `deactivateAdmin` (super-admin controller): find the admin/center-admin,
reject `ALREADY_DEACTIVATED` if inactive, otherwise save it inactive and
`updateMany` every record whose id is in its `staffCreated` to inactive,
responding with mongo's `modifiedCount` (records actually changed). -/
def deactivateAdmin (store : List Account) (id : Nat) : CtrlResult × List Account :=
  match store.find? (fun u => u.id == id && (u.role == "admin" || u.role == "center_admin")) with
  | none => (.err 404 "NOT_FOUND", store)
  | some admin =>
    if !admin.isActive then (.err 400 "ALREADY_DEACTIVATED", store)
    else
      let store1 := store.map fun u => if u.id == admin.id then { u with isActive := false } else u
      let modifiedCount :=
        (store1.filter fun u => admin.staffCreated.contains u.id && u.isActive).length
      let store2 := store1.map fun u =>
        if admin.staffCreated.contains u.id then { u with isActive := false } else u
      (.okCount modifiedCount, store2)

/-- `deactivateCenterAdmin` (admin-staff controller): the acting admin needs
truthy `permissions?.users?.delete`; then as `deactivateAdmin` but restricted
to `center_admin` targets. -/
def deactivateCenterAdmin (store : List Account) (admin : Account) (id : Nat) :
    CtrlResult × List Account :=
  if !(truthy (jget (jget admin.permissions "users") "delete")) then (.err 403 "FORBIDDEN", store)
  else
    match store.find? (fun u => u.id == id && u.role == "center_admin") with
    | none => (.err 404 "NOT_FOUND", store)
    | some centerAdmin =>
      if !centerAdmin.isActive then (.err 400 "ALREADY_DEACTIVATED", store)
      else
        let store1 := store.map fun u =>
          if u.id == centerAdmin.id then { u with isActive := false } else u
        let modifiedCount :=
          (store1.filter fun u => centerAdmin.staffCreated.contains u.id && u.isActive).length
        let store2 := store1.map fun u =>
          if centerAdmin.staffCreated.contains u.id then { u with isActive := false } else u
        (.okCount modifiedCount, store2)

/-- `reactivateAdmin` (super-admin controller): find the admin/center-admin,
reject `ALREADY_ACTIVE` if active, otherwise save it active; `staffCreated`
records are not touched. -/
def reactivateAdmin (store : List Account) (id : Nat) : CtrlResult × List Account :=
  match store.find? (fun u => u.id == id && (u.role == "admin" || u.role == "center_admin")) with
  | none => (.err 404 "NOT_FOUND", store)
  | some admin =>
    if admin.isActive then (.err 400 "ALREADY_ACTIVE", store)
    else
      (.ok, store.map fun u => if u.id == admin.id then { u with isActive := true } else u)

/-- `reactivateCenterAdmin` (admin-staff controller): the acting admin needs
truthy `permissions?.users?.update`; then as `reactivateAdmin` but restricted
to `center_admin` targets. -/
def reactivateCenterAdmin (store : List Account) (admin : Account) (id : Nat) :
    CtrlResult × List Account :=
  if !(truthy (jget (jget admin.permissions "users") "update")) then (.err 403 "FORBIDDEN", store)
  else
    match store.find? (fun u => u.id == id && u.role == "center_admin") with
    | none => (.err 404 "NOT_FOUND", store)
    | some centerAdmin =>
      if centerAdmin.isActive then (.err 400 "ALREADY_ACTIVE", store)
      else
        (.ok,
          store.map fun u => if u.id == centerAdmin.id then { u with isActive := true } else u)

/-! ## Concrete fixtures used to evaluate the definitions on explicit inputs -/

/-- A center-admin account that may view orders only; acts as the staff-creating
admin in concrete runs. -/
def adminFx : Account :=
  { id := 1, role := "center_admin", name := "Asha", email := "asha@example.com",
    phone := "111", password := "pw",
    permissions := .jobj [("orders", .jobj [("view", .jbool true)])],
    assignedBranch := some "B1", createdBy := none, createdByModel := "SuperAdmin",
    isActive := true, isEmailVerified := true, staffCreated := [] }

/-- The staff record produced by `createStaff` from `adminFx` with an omitted
permissions value. -/
def staffDefaultFx : Account :=
  { id := 2, role := "staff", name := "Sam", email := "sam@example.com",
    phone := "222", password := "pw", permissions := getDefaultPermissions,
    assignedBranch := some "B1", createdBy := some 1, createdByModel := "User",
    isActive := true, isEmailVerified := true, staffCreated := [] }

/-- An admin-role account holding the `users` management permissions; acts as
the principal of the admin-mounted center-admin routes in concrete runs. -/
def adminActorFx : Account :=
  { id := 3, role := "admin", name := "Arun", email := "arun@example.com",
    phone := "333", password := "pw",
    permissions := .jobj [("users",
      .jobj [("view", .jbool true), ("create", .jbool true), ("update", .jbool true),
             ("delete", .jbool true)])],
    assignedBranch := none, createdBy := none, createdByModel := "SuperAdmin",
    isActive := true, isEmailVerified := true, staffCreated := [] }

/-- The center-admin record produced by `createCenterAdmin` from
`adminActorFx` with a request-supplied branch. -/
def centerAdminCreatedFx : Account :=
  { id := 4, role := "center_admin", name := "Carla", email := "carla@example.com",
    phone := "444", password := "pw", permissions := .jobj [],
    assignedBranch := some "B2", createdBy := some 3, createdByModel := "User",
    isActive := true, isEmailVerified := true, staffCreated := [] }

/-- An active center-admin with two staff accounts, for cascade runs. -/
def cascadeAdminFx : Account :=
  { id := 10, role := "center_admin", name := "Dia", email := "dia@example.com",
    phone := "555", password := "pw",
    permissions := .jobj [("orders", .jobj [("view", .jbool true)])],
    assignedBranch := some "B1", createdBy := none, createdByModel := "SuperAdmin",
    isActive := true, isEmailVerified := true, staffCreated := [11, 12] }

/-- First staff child of `cascadeAdminFx`, active. -/
def cascadeStaff1Fx : Account :=
  { id := 11, role := "staff", name := "S1", email := "s1@example.com",
    phone := "666", password := "pw", permissions := getDefaultPermissions,
    assignedBranch := some "B1", createdBy := some 10, createdByModel := "User",
    isActive := true, isEmailVerified := true, staffCreated := [] }

/-- Second staff child of `cascadeAdminFx`, active. -/
def cascadeStaff2Fx : Account :=
  { id := 12, role := "staff", name := "S2", email := "s2@example.com",
    phone := "777", password := "pw", permissions := getDefaultPermissions,
    assignedBranch := some "B1", createdBy := some 10, createdByModel := "User",
    isActive := true, isEmailVerified := true, staffCreated := [] }

/-- `cascadeAdminFx` after deactivation. -/
def cascadeAdminInactiveFx : Account := { cascadeAdminFx with isActive := false }

/-- A permissions value whose only true flag in the `reports` module is the
advanced action `export` (`view` is false). -/
def exportOnlyPermsFx : JVal :=
  .jobj [("reports", .jobj [("view", .jbool false), ("export", .jbool true)])]

/-- `createStaff` request body with the permissions value omitted
(`undefined`). -/
def staffBodyNoPermsFx : CreateStaffBody :=
  { name := "Sam", email := "sam@example.com", phone := "222", password := "pw",
    permissions := .jundefined }

/-- `createCenterAdmin` request body carrying a caller-supplied branch. -/
def centerAdminBodyFx : CreateCenterAdminBody :=
  { name := "Carla", email := "carla@example.com", phone := "444", password := "pw",
    assignedBranch := some "B2" }

/-- `createAdmin` request body whose permissions value is an empty object
(no pair set true). -/
def adminBodyEmptyPermsFx : CreateAdminBody :=
  { name := "Nia", email := "nia@example.com", phone := "999", password := "pw",
    permissions := .jobj [], assignedBranch := none, role := none }

/-- `adminFx` after `staffCreated` records the staff account with id 2. -/
def adminOwnerFx : Account := { adminFx with staffCreated := [2] }

/-- `updateStaff` request body granting `financial.view`, which `adminOwnerFx`
does not hold. -/
def updateStaffBodyFx : UpdateStaffBody :=
  { name := none, phone := none,
    permissions := .jobj [("financial", .jobj [("view", .jbool true)])] }

/-! ## Helper lemmas -/

theorem subsetActionLoop_eq (p c : JVal) (m : String) (acts : List String) :
    subsetActionLoop p c m acts
      = ((acts.filter fun a => readPerm c m a && !readPerm p m a).map fun a => m ++ "." ++ a) := by
  induction acts with
  | nil => rfl
  | cons a rest ih =>
    cases h : isTrue (jget (jget c m) a) && !isTrue (jget (jget p m) a) with
    | true => simp [subsetActionLoop, readPerm, List.filter_cons, h, ih]
    | false => simp [subsetActionLoop, readPerm, List.filter_cons, h, ih]

theorem readPerm_eq_false_of_not_truthy (c : JVal) (m : String)
    (h : truthy (jget c m) = false) (a : String) : readPerm c m a = false := by
  unfold readPerm
  cases hv : jget c m with
  | jbool b =>
    cases b
    · rfl
    · rw [hv] at h; simp [truthy] at h
  | jnull => rfl
  | jundefined => rfl
  | jobj fs => rw [hv] at h; simp [truthy] at h

theorem subsetModuleLoop_eq (p c : JVal) (mods : List String) :
    subsetModuleLoop p c mods
      = mods.flatMap fun m =>
          ((getModuleActions m).filter fun a => readPerm c m a && !readPerm p m a).map
            fun a => m ++ "." ++ a := by
  induction mods with
  | nil => rfl
  | cons m rest ih =>
    simp only [subsetModuleLoop, List.flatMap_cons, ih]
    congr 1
    cases h : truthy (jget c m) with
    | true => simp [subsetActionLoop_eq]
    | false =>
      have hr : ∀ a, readPerm c m a = false := readPerm_eq_false_of_not_truthy c m h
      simp [hr]

theorem invalidPermissions_eq_spec (parent candidate : JVal) :
    (isPermissionSubset parent candidate).invalidPermissions
      = specViolationList parent candidate := by
  simp [isPermissionSubset, specViolationList, subsetModuleLoop_eq]

theorem isValid_iff_no_violation (parent candidate : JVal) :
    (isPermissionSubset parent candidate).isValid = true ↔
      ∀ m ∈ MODULES, ∀ a ∈ getModuleActions m,
        ¬(readPerm candidate m a = true ∧ readPerm parent m a = false) := by
  simp only [isPermissionSubset, subsetModuleLoop_eq]
  rw [List.isEmpty_iff]
  simp only [List.flatMap_eq_nil_iff, List.map_eq_nil_iff, List.filter_eq_nil_iff]
  constructor
  · intro h m hm a ha hc
    exact absurd (h m hm a ha) (by simp [hc.1, hc.2])
  · intro h m hm a ha
    have := h m hm a ha
    cases hc : readPerm candidate m a with
    | false => simp [hc]
    | true =>
      cases hp : readPerm parent m a with
      | true => simp [hc, hp]
      | false => exact absurd ⟨hc, hp⟩ this

theorem jvalues_eq_nil_of_not_truthy (v : JVal) (h : truthy v = false) : jvalues v = [] := by
  cases v with
  | jobj fs => simp [truthy] at h
  | jbool b => rfl
  | jnull => rfl
  | jundefined => rfl

theorem getField_eq_undef_of_not_mem (fields : List (String × JVal)) (k : String)
    (h : (fields.all fun kv => !(kv.1 == k)) = true) : getField fields k = .jundefined := by
  induction fields with
  | nil => rfl
  | cons f rest ih =>
    simp only [List.all_cons, Bool.and_eq_true, Bool.not_eq_true'] at h
    simp [getField, h.1, ih h.2]

theorem length_filter_map_eq {α : Type} (l : List α) (f : α → α) (p : α → Bool)
    (hp : ∀ x, p (f x) = p x) :
    ((l.map f).filter p).length = (l.filter p).length := by
  induction l with
  | nil => rfl
  | cons x xs ih =>
    simp only [List.map_cons, List.filter_cons, hp x]
    by_cases hpx : p x = true
    · rw [if_pos hpx, if_pos hpx]
      simp [ih]
    · rw [if_neg hpx, if_neg hpx]
      exact ih

theorem deactivate_count_eq (store : List Account) (aid : Nat) (ids : List Nat)
    (h : aid ∉ ids) :
    ((store.map fun u => if u.id == aid then { u with isActive := false } else u).filter
        fun u => ids.contains u.id && u.isActive).length
      = (store.filter fun u => ids.contains u.id && u.isActive).length := by
  apply length_filter_map_eq
  intro x
  by_cases h1 : x.id = aid
  · simp [h1, h]
  · simp [h1]

theorem deactivate_store_inactive (store : List Account) (aid : Nat) (ids : List Nat) :
    ∀ u ∈ ((store.map fun v => if v.id == aid then { v with isActive := false } else v).map
        fun v => if ids.contains v.id then { v with isActive := false } else v),
      (u.id = aid ∨ ids.contains u.id = true) → u.isActive = false := by
  intro u hu hcase
  simp only [List.mem_map] at hu
  obtain ⟨v, hv, rfl⟩ := hu
  obtain ⟨w, hw, rfl⟩ := hv
  by_cases h1 : w.id = aid
  · by_cases h2 : w.id ∈ ids
    · simp [h1, h2, h1 ▸ h2]
    · simp [h1, h2, h1 ▸ h2]
  · by_cases h2 : w.id ∈ ids
    · simp [h1, h2]
    · simp [h1, h2] at hcase ⊢

/-! ## Claim theorems -/

/-- **C1**: `isPermissionSubset(parent, candidate)` returns `isValid == true`
iff no taxonomy module and valid action of that module reads `true` in the
candidate while reading `false` in the parent; its violations list is exactly
those `module.action` pairs in taxonomy iteration order; every set is a subset
of itself; and an all-absent (empty) candidate is always valid. -/
theorem c1_isPermissionSubset_correct (parent candidate : JVal) :
    ((isPermissionSubset parent candidate).isValid = true ↔
      ∀ m ∈ MODULES, ∀ a ∈ getModuleActions m,
        ¬(readPerm candidate m a = true ∧ readPerm parent m a = false))
    ∧ (isPermissionSubset parent candidate).invalidPermissions
        = specViolationList parent candidate
    ∧ (isPermissionSubset parent parent).isValid = true
    ∧ (isPermissionSubset parent (JVal.jobj [])).isValid = true := by
  refine ⟨isValid_iff_no_violation parent candidate,
    invalidPermissions_eq_spec parent candidate, ?_, ?_⟩
  · rw [isValid_iff_no_violation]
    intro m _ a _ hc
    exact Bool.noConfusion (hc.1.symm.trans hc.2)
  · rw [isValid_iff_no_violation]
    intro m _ a _ hc
    exact Bool.noConfusion hc.1

/-- **C2**: for every (module, action) pair — also outside the taxonomy — and
every stored permissions value, the authorization check on a principal with
role `superadmin` invokes `next` (and the `hasPermission` utility returns
`true`) without consulting the stored set or validating the pair. -/
theorem c2_superadmin_bypass (module action : String) (perms : JVal) :
    checkPermission module action (some ⟨"superadmin", perms⟩) = .next
    ∧ hasPermission (some ⟨"superadmin", perms⟩) module action = true := by
  exact ⟨rfl, rfl⟩

/-- **C10**: `requireCenterAdminPermission` and `requireAnyCenterAdminPermission`
allow a principal with the plain role string `admin` unconditionally, for every
(module, action) pair, every permission list, and every stored permissions
value — exactly as they do for `superadmin`. -/
theorem c10_admin_bypass (module action : String) (perms : JVal)
    (checks : List (String × String)) :
    requireCenterAdminPermission module action ⟨"admin", perms⟩ = .next
    ∧ requireAnyCenterAdminPermission checks ⟨"admin", perms⟩ = .next
    ∧ requireCenterAdminPermission module action ⟨"superadmin", perms⟩ = .next
    ∧ requireAnyCenterAdminPermission checks ⟨"superadmin", perms⟩ = .next := by
  exact ⟨rfl, rfl, rfl, rfl⟩

/-- **C9**: for every taxonomy (module, action) pair, the permission read used
by the authorization check (`permissions?.[module]?.[action] === true`, a total
function in this embedding, matching the optional chaining that cannot throw)
evaluates to `false` whenever the stored value is null or undefined, the set
omits the module, or the module entry omits the action — absence denies rather
than errors; for a non-superadmin principal `hasPermission` is exactly this
read. -/
theorem c9_default_deny (module action : String) (_hm : module ∈ MODULES)
    (_ha : action ∈ getModuleActions module) :
    readPerm JVal.jnull module action = false
    ∧ readPerm JVal.jundefined module action = false
    ∧ (∀ perms : JVal, jget perms module = JVal.jundefined → readPerm perms module action = false)
    ∧ (∀ fields : List (String × JVal), (fields.all fun kv => !(kv.1 == module)) = true →
        readPerm (JVal.jobj fields) module action = false)
    ∧ (∀ perms : JVal, jget (jget perms module) action = JVal.jundefined →
        readPerm perms module action = false)
    ∧ (∀ u : Principal, (u.role == "superadmin") = false →
        hasPermission (some u) module action = readPerm u.permissions module action) := by
  refine ⟨rfl, rfl, ?_, ?_, ?_, ?_⟩
  · intro perms h
    unfold readPerm
    rw [h]
    rfl
  · intro fields h
    show isTrue (jget (getField fields module) action) = false
    rw [getField_eq_undef_of_not_mem fields module h]
    rfl
  · intro perms h
    unfold readPerm
    rw [h]
    rfl
  · intro u h
    simp [hasPermission, h]

/-- Witness for C9 at the taxonomy pair (orders, view) and a permission set
missing the module. -/
theorem c9_default_deny_witness :
    ("orders" ∈ MODULES ∧ "view" ∈ getModuleActions "orders")
    ∧ readPerm (JVal.jobj [("users", JVal.jobj [])]) "orders" "view" = false :=
  ⟨⟨by decide, by decide⟩,
    (c9_default_deny "orders" "view" (by decide) (by decide)).2.2.2.1
      [("users", JVal.jobj [])] (by decide)⟩

/-- Counterexample to **C8** as stated: a center_admin whose only true
permission in the `reports` module is the advanced action `export` (with
`view` false) is allowed by `checkModuleAccess` but denied with
`ACTION_DENIED` by `requireCenterAdminModuleAccess`, so the claimed
any-action-true criterion does not hold for the latter variant. -/
theorem c8_counterexample :
    checkModuleAccess "reports" (some ⟨"center_admin", exportOnlyPermsFx⟩) = .next
    ∧ requireCenterAdminModuleAccess "reports" ⟨"center_admin", exportOnlyPermsFx⟩
        = .respond 403 "ACTION_DENIED" [] := by
  exact ⟨rfl, rfl⟩

/-- **C8 (amended)**: for an authenticated non-superadmin principal,
`checkModuleAccess(module)` allows iff some value in the principal's permission
entry for the module is `=== true` (view or any advanced action); the
`requireCenterAdminModuleAccess` variant instead requires the `view` action
specifically — it is `requireCenterAdminPermission(module, 'view')`, which for
a center_admin allows iff `permissions`, `permissions[module]` and
`permissions[module].view` are all truthy. -/
theorem c8_module_access (module : String) (u : Principal)
    (h : (u.role == "superadmin") = false) :
    (checkModuleAccess module (some u) = .next ↔
      ((jvalues (jget u.permissions module)).any fun v => isTrue v) = true)
    ∧ requireCenterAdminModuleAccess module u = requireCenterAdminPermission module "view" u
    ∧ ((u.role == "center_admin") = true →
        (requireCenterAdminModuleAccess module u = .next ↔
          truthy u.permissions = true ∧ truthy (jget u.permissions module) = true
            ∧ truthy (jget (jget u.permissions module) "view") = true)) := by
  refine ⟨?_, rfl, ?_⟩
  · cases ht : truthy (jget u.permissions module) with
    | false =>
      have hj : jvalues (jget u.permissions module) = [] :=
        jvalues_eq_nil_of_not_truthy _ ht
      simp [checkModuleAccess, h, ht, hj]
    | true =>
      cases hv : (jvalues (jget u.permissions module)).any (fun v => isTrue v) with
      | true => simp [checkModuleAccess, h, ht, hv]
      | false => simp [checkModuleAccess, h, ht, hv]
  · intro hc
    have hrole : u.role = "center_admin" := by simpa using hc
    unfold requireCenterAdminModuleAccess requireCenterAdminPermission
    rw [hrole]
    cases h1 : truthy u.permissions with
    | false => simp [h1]
    | true =>
      cases h2 : truthy (jget u.permissions module) with
      | false => simp [h1, h2]
      | true =>
        cases h3 : truthy (jget (jget u.permissions module) "view") with
        | false => simp [h1, h2, h3]
        | true => simp [h1, h2, h3]

/-- Witness for C8 (amended) at a concrete center_admin principal. -/
theorem c8_module_access_witness :
    ((⟨"center_admin", exportOnlyPermsFx⟩ : Principal).role == "superadmin") = false
    ∧ (checkModuleAccess "reports" (some ⟨"center_admin", exportOnlyPermsFx⟩) = .next ↔
        ((jvalues (jget exportOnlyPermsFx "reports")).any fun v => isTrue v) = true) :=
  ⟨rfl, (c8_module_access "reports" ⟨"center_admin", exportOnlyPermsFx⟩ rfl).1⟩

/-- Counterexample to **C3** as stated: `createStaff` performs no non-empty
check — with the permissions value omitted it persists a staff account whose
stored set is the all-false default, so a Staff account can be created with an
all-false permission set. -/
theorem c3_counterexample :
    createStaff [adminFx] adminFx 2 true staffBodyNoPermsFx
      = (.created staffDefaultFx, [{ adminFx with staffCreated := [2] }, staffDefaultFx])
    ∧ hasAtLeastOnePermission staffDefaultFx.permissions = false := by
  exact ⟨rfl, rfl⟩

/-- **C3 (amended)**: `createAdmin` and `updatePermissions` reject a
permissions value with no (module, action) pair set true, responding 400
`INVALID_PERMISSIONS` and persisting nothing; `createStaff` and `updateStaff`
perform no such non-empty check (see the counterexample: `createStaff`
persists the all-false default set when permissions are omitted). -/
theorem c3_nonempty_check (store : List Account) (actorId freshId targetId : Nat)
    (body : CreateAdminBody) (perms : JVal) (target : Account)
    (hbody : hasAtLeastOnePermission body.permissions = false)
    (hperms : hasAtLeastOnePermission perms = false)
    (hrole : body.role.getD "admin" = "admin")
    (hde : (store.any fun u => u.email == jsToLower body.email) = false)
    (hdp : (store.any fun u => u.phone == body.phone) = false)
    (hfind : store.find?
        (fun u => u.id == targetId && (u.role == "admin" || u.role == "center_admin"))
      = some target) :
    createAdmin store actorId freshId true body = (.err 400 "INVALID_PERMISSIONS", store)
    ∧ updatePermissions store targetId perms = (.err 400 "INVALID_PERMISSIONS", store) := by
  constructor
  · simp [createAdmin, hrole, hde, hdp, hbody]
  · simp [updatePermissions, hfind, hperms]

/-- Witness for C3 (amended): an empty permissions object is rejected by both
`createAdmin` and `updatePermissions` against a one-account store. -/
theorem c3_nonempty_check_witness :
    hasAtLeastOnePermission (JVal.jobj []) = false
    ∧ createAdmin [cascadeAdminFx] 0 20 true adminBodyEmptyPermsFx
        = (.err 400 "INVALID_PERMISSIONS", [cascadeAdminFx]) :=
  ⟨rfl,
    (c3_nonempty_check [cascadeAdminFx] 0 20 10 adminBodyEmptyPermsFx (JVal.jobj [])
      cascadeAdminFx rfl rfl rfl rfl rfl rfl).1⟩

/-- **C5**: an `updateStaff` request whose permissions grant some taxonomy
(module, action) pair that the acting admin's permission set (as it is at
update time) does not grant is rejected with `INVALID_PERMISSION`, the
response details listing every violating pair, and the store — including the
staff record's stored permission set — is left unchanged. -/
theorem c5_updateStaff_rejects_excess (store : List Account) (admin : Account) (id : Nat)
    (body : UpdateStaffBody) (staff : Account)
    (hown : id ∈ admin.staffCreated)
    (hfind : store.find? (fun u => u.id == id && u.role == "staff") = some staff)
    (htr : truthy body.permissions = true)
    (hviol : ∃ m ∈ MODULES, ∃ a ∈ getModuleActions m,
        readPerm body.permissions m a = true ∧ readPerm admin.permissions m a = false) :
    updateStaff store admin id true body
      = (.errDetails 400 "INVALID_PERMISSION"
          (specViolationList admin.permissions body.permissions), store) := by
  have hinv : (isPermissionSubset admin.permissions body.permissions).isValid = false := by
    rcases hviol with ⟨m, hm, a, ha, hv⟩
    cases hval : (isPermissionSubset admin.permissions body.permissions).isValid with
    | false => rfl
    | true => exact absurd hv ((isValid_iff_no_violation _ _).mp hval m hm a ha)
  simp [updateStaff, hown, hfind, htr, hinv, invalidPermissions_eq_spec]

/-- Witness for C5: `adminOwnerFx` (orders.view only) cannot grant
`financial.view` to its staff. -/
theorem c5_updateStaff_rejects_excess_witness :
    (2 ∈ adminOwnerFx.staffCreated)
    ∧ updateStaff [adminOwnerFx, staffDefaultFx] adminOwnerFx 2 true updateStaffBodyFx
        = (.errDetails 400 "INVALID_PERMISSION"
            (specViolationList adminOwnerFx.permissions updateStaffBodyFx.permissions),
           [adminOwnerFx, staffDefaultFx]) :=
  ⟨by decide,
    c5_updateStaff_rejects_excess [adminOwnerFx, staffDefaultFx] adminOwnerFx 2
      updateStaffBodyFx staffDefaultFx (by decide) rfl rfl
      ⟨"financial", by decide, "view", by decide, rfl, rfl⟩⟩

/-- Counterexample to **C6** as stated: through `createCenterAdmin` an
admin-role principal holding `users.create` creates an account of kind
CenterAdmin — not Staff — and its `assignedBranch` is taken from the
caller-supplied request body (the acting admin has no branch at all). -/
theorem c6_counterexample :
    (createCenterAdmin [adminActorFx] adminActorFx 4 true centerAdminBodyFx).1
      = .created centerAdminCreatedFx
    ∧ adminActorFx.role = "admin"
    ∧ centerAdminCreatedFx.role = "center_admin"
    ∧ centerAdminCreatedFx.assignedBranch = some "B2"
    ∧ adminActorFx.assignedBranch = none := by
  exact ⟨rfl, rfl, rfl, rfl, rfl⟩

/-- **C6 (amended)**: `createStaff` fixes the created account's kind to Staff —
role `staff`, `assignedBranch` copied from the acting admin (including null),
`createdBy` the acting admin — never taking role or branch from the request;
but an admin-level principal with `users.create` can create a CenterAdmin
through `createCenterAdmin`, whose role is fixed to `center_admin` and whose
`assignedBranch` is taken from the caller-supplied request body. -/
theorem c6_created_kinds (store : List Account) (admin : Account) (freshId : Nat)
    (v : Bool) (sbody : CreateStaffBody) (cbody : CreateCenterAdminBody) :
    (∀ acc store2, createStaff store admin freshId v sbody = (.created acc, store2) →
        acc.role = "staff" ∧ acc.assignedBranch = admin.assignedBranch
          ∧ acc.createdBy = some admin.id)
    ∧ (∀ acc store2, createCenterAdmin store admin freshId v cbody = (.created acc, store2) →
        acc.role = "center_admin" ∧ acc.assignedBranch = cbody.assignedBranch) := by
  constructor
  · intro acc store2 h
    unfold createStaff at h
    repeat' split at h
    · exact absurd (congrArg Prod.fst h) (by simp)
    · exact absurd (congrArg Prod.fst h) (by simp)
    · exact absurd (congrArg Prod.fst h) (by simp)
    · exact absurd (congrArg Prod.fst h) (by simp)
    · have hacc := CtrlResult.created.inj (congrArg Prod.fst h)
      subst hacc
      exact ⟨rfl, rfl, rfl⟩
    · have hacc := CtrlResult.created.inj (congrArg Prod.fst h)
      subst hacc
      exact ⟨rfl, rfl, rfl⟩
  · intro acc store2 h
    unfold createCenterAdmin at h
    repeat' split at h
    · exact absurd (congrArg Prod.fst h) (by simp)
    · exact absurd (congrArg Prod.fst h) (by simp)
    · exact absurd (congrArg Prod.fst h) (by simp)
    · exact absurd (congrArg Prod.fst h) (by simp)
    · exact absurd (congrArg Prod.fst h) (by simp)
    · have hacc := CtrlResult.created.inj (congrArg Prod.fst h)
      subst hacc
      exact ⟨rfl, rfl⟩

/-- Witness for C6 (amended) at a concrete staff-creation run. -/
theorem c6_created_kinds_witness :
    staffDefaultFx.role = "staff" ∧ staffDefaultFx.assignedBranch = adminFx.assignedBranch
      ∧ staffDefaultFx.createdBy = some adminFx.id :=
  (c6_created_kinds [adminFx] adminFx 2 true staffBodyNoPermsFx centerAdminBodyFx).1
    staffDefaultFx [{ adminFx with staffCreated := [2] }, staffDefaultFx] rfl

/-- **C4**: deactivating an active Admin-tier account (`deactivateAdmin`, and
`deactivateCenterAdmin` for an actor holding `users.delete`) sets
`isActive = false` on the target and on every account listed in its
`staffCreated` in the same operation, responding with the number of children
actually affected (0 when there are none); invoking either on an
already-inactive target is rejected with `ALREADY_DEACTIVATED` and changes no
account. -/
theorem c4_deactivate_cascade (store : List Account) (actor : Account) (id : Nat)
    (adminT ctarget : Account)
    (hfindA : store.find?
        (fun u => u.id == id && (u.role == "admin" || u.role == "center_admin")) = some adminT)
    (hfindC : store.find? (fun u => u.id == id && u.role == "center_admin") = some ctarget)
    (hperm : truthy (jget (jget actor.permissions "users") "delete") = true) :
    ((adminT.isActive = true → adminT.id ∉ adminT.staffCreated →
        deactivateAdmin store id
          = (.okCount ((store.filter fun u =>
                adminT.staffCreated.contains u.id && u.isActive).length),
             (store.map fun v => if v.id == adminT.id then { v with isActive := false } else v).map
               fun v => if adminT.staffCreated.contains v.id then { v with isActive := false }
                 else v)
        ∧ (∀ u ∈ (deactivateAdmin store id).2,
            (u.id = adminT.id ∨ adminT.staffCreated.contains u.id = true) → u.isActive = false)
        ∧ (adminT.staffCreated = [] → (deactivateAdmin store id).1 = .okCount 0))
      ∧ (adminT.isActive = false →
          deactivateAdmin store id = (.err 400 "ALREADY_DEACTIVATED", store)))
    ∧ ((ctarget.isActive = true → ctarget.id ∉ ctarget.staffCreated →
        deactivateCenterAdmin store actor id
          = (.okCount ((store.filter fun u =>
                ctarget.staffCreated.contains u.id && u.isActive).length),
             (store.map fun v => if v.id == ctarget.id then { v with isActive := false } else v).map
               fun v => if ctarget.staffCreated.contains v.id then { v with isActive := false }
                 else v)
        ∧ (∀ u ∈ (deactivateCenterAdmin store actor id).2,
            (u.id = ctarget.id ∨ ctarget.staffCreated.contains u.id = true) → u.isActive = false)
        ∧ (ctarget.staffCreated = [] → (deactivateCenterAdmin store actor id).1 = .okCount 0))
      ∧ (ctarget.isActive = false →
          deactivateCenterAdmin store actor id = (.err 400 "ALREADY_DEACTIVATED", store))) := by
  constructor
  · constructor
    · intro hact hnotin
      have key : deactivateAdmin store id
          = (.okCount (((store.map fun v =>
                if v.id == adminT.id then { v with isActive := false } else v).filter
                  fun u => adminT.staffCreated.contains u.id && u.isActive).length),
             (store.map fun v => if v.id == adminT.id then { v with isActive := false } else v).map
               fun v => if adminT.staffCreated.contains v.id then { v with isActive := false }
                 else v) := by
        simp only [deactivateAdmin, hfindA]
        rw [if_neg (by simp [hact])]
      refine ⟨?_, ?_, ?_⟩
      · rw [key, deactivate_count_eq store adminT.id adminT.staffCreated hnotin]
      · rw [key]
        exact deactivate_store_inactive store adminT.id adminT.staffCreated
      · intro hsc
        rw [key]
        simp [hsc]
    · intro hina
      simp only [deactivateAdmin, hfindA]
      rw [if_pos (by simp [hina])]
  · constructor
    · intro hact hnotin
      have key : deactivateCenterAdmin store actor id
          = (.okCount (((store.map fun v =>
                if v.id == ctarget.id then { v with isActive := false } else v).filter
                  fun u => ctarget.staffCreated.contains u.id && u.isActive).length),
             (store.map fun v => if v.id == ctarget.id then { v with isActive := false } else v).map
               fun v => if ctarget.staffCreated.contains v.id then { v with isActive := false }
                 else v) := by
        simp only [deactivateCenterAdmin, hfindC]
        rw [if_neg (by simp [hperm]), if_neg (by simp [hact])]
      refine ⟨?_, ?_, ?_⟩
      · rw [key, deactivate_count_eq store ctarget.id ctarget.staffCreated hnotin]
      · rw [key]
        exact deactivate_store_inactive store ctarget.id ctarget.staffCreated
      · intro hsc
        rw [key]
        simp [hsc]
    · intro hina
      simp only [deactivateCenterAdmin, hfindC]
      rw [if_neg (by simp [hperm]), if_pos (by simp [hina])]

/-- Witness for C4: deactivating the active `cascadeAdminFx` with two active
staff children reports an affected count of 2. -/
theorem c4_deactivate_cascade_witness :
    cascadeAdminFx.isActive = true
    ∧ (deactivateAdmin [cascadeAdminFx, cascadeStaff1Fx, cascadeStaff2Fx] 10).1
        = .okCount 2 := by
  refine ⟨rfl, ?_⟩
  have h := (((c4_deactivate_cascade [cascadeAdminFx, cascadeStaff1Fx, cascadeStaff2Fx]
      adminActorFx 10 cascadeAdminFx cascadeAdminFx rfl rfl rfl).1).1 rfl (by decide)).1
  rw [h]
  rfl

/-- **C7**: reactivating an inactive Admin-tier account (`reactivateAdmin`, and
`reactivateCenterAdmin` for an actor holding `users.update`) sets
`isActive = true` on that account only — every other account, in particular
every account listed in its `staffCreated`, is recorded unchanged, all fields
included; reactivating an already-active account is rejected with
`ALREADY_ACTIVE` and changes nothing. -/
theorem c7_reactivate_no_cascade (store : List Account) (actor : Account) (id : Nat)
    (adminT ctarget : Account)
    (hfindA : store.find?
        (fun u => u.id == id && (u.role == "admin" || u.role == "center_admin")) = some adminT)
    (hfindC : store.find? (fun u => u.id == id && u.role == "center_admin") = some ctarget)
    (hperm : truthy (jget (jget actor.permissions "users") "update") = true) :
    ((adminT.isActive = false →
        reactivateAdmin store id
          = (.ok, store.map fun v => if v.id == adminT.id then { v with isActive := true } else v)
        ∧ (∀ u ∈ store, ¬(u.id = adminT.id) → u ∈ (reactivateAdmin store id).2)
        ∧ (adminT.id ∉ adminT.staffCreated →
            ∀ u ∈ store, adminT.staffCreated.contains u.id = true →
              u ∈ (reactivateAdmin store id).2))
      ∧ (adminT.isActive = true →
          reactivateAdmin store id = (.err 400 "ALREADY_ACTIVE", store)))
    ∧ ((ctarget.isActive = false →
        reactivateCenterAdmin store actor id
          = (.ok, store.map fun v => if v.id == ctarget.id then { v with isActive := true } else v)
        ∧ (∀ u ∈ store, ¬(u.id = ctarget.id) → u ∈ (reactivateCenterAdmin store actor id).2)
        ∧ (ctarget.id ∉ ctarget.staffCreated →
            ∀ u ∈ store, ctarget.staffCreated.contains u.id = true →
              u ∈ (reactivateCenterAdmin store actor id).2))
      ∧ (ctarget.isActive = true →
          reactivateCenterAdmin store actor id = (.err 400 "ALREADY_ACTIVE", store))) := by
  constructor
  · constructor
    · intro hina
      have key : reactivateAdmin store id
          = (.ok, store.map fun v =>
              if v.id == adminT.id then { v with isActive := true } else v) := by
        simp only [reactivateAdmin, hfindA]
        rw [if_neg (by simp [hina])]
      refine ⟨key, ?_, ?_⟩
      · intro u hu hne
        rw [key]
        exact List.mem_map.mpr ⟨u, hu, by simp [hne]⟩
      · intro hnotin u hu hmem
        have hmem' : u.id ∈ adminT.staffCreated := by simpa using hmem
        have hne : ¬(u.id = adminT.id) := fun he => hnotin (he ▸ hmem')
        rw [key]
        exact List.mem_map.mpr ⟨u, hu, by simp [hne]⟩
    · intro hact
      simp only [reactivateAdmin, hfindA]
      rw [if_pos hact]
  · constructor
    · intro hina
      have key : reactivateCenterAdmin store actor id
          = (.ok, store.map fun v =>
              if v.id == ctarget.id then { v with isActive := true } else v) := by
        simp only [reactivateCenterAdmin, hfindC]
        rw [if_neg (by simp [hperm]), if_neg (by simp [hina])]
      refine ⟨key, ?_, ?_⟩
      · intro u hu hne
        rw [key]
        exact List.mem_map.mpr ⟨u, hu, by simp [hne]⟩
      · intro hnotin u hu hmem
        have hmem' : u.id ∈ ctarget.staffCreated := by simpa using hmem
        have hne : ¬(u.id = ctarget.id) := fun he => hnotin (he ▸ hmem')
        rw [key]
        exact List.mem_map.mpr ⟨u, hu, by simp [hne]⟩
    · intro hact
      simp only [reactivateCenterAdmin, hfindC]
      rw [if_neg (by simp [hperm]), if_pos hact]

/-- Witness for C7: reactivating the inactive admin restores only its own
record; its staff child is untouched. -/
theorem c7_reactivate_no_cascade_witness :
    cascadeAdminInactiveFx.isActive = false
    ∧ reactivateAdmin [cascadeAdminInactiveFx, cascadeStaff1Fx] 10
        = (.ok, [cascadeAdminFx, cascadeStaff1Fx]) := by
  refine ⟨rfl, ?_⟩
  have h := (((c7_reactivate_no_cascade [cascadeAdminInactiveFx, cascadeStaff1Fx]
      adminActorFx 10 cascadeAdminInactiveFx cascadeAdminInactiveFx rfl rfl rfl).1).1 rfl).1
  rw [h]
  rfl

end LaundryPro
